import Mathlib

/-!
Shallow embedding of `hana_ml/algorithms/pal/random.py` (version
2.11.21121102): the PAL random-distribution sampling wrappers.  Each
wrapper validates its arguments, encodes them into parameter rows, derives
per-call temporary table names, invokes a remote PAL procedure over a
connection, and on a database error drops the generated tables and
re-raises.  The connection collaborator (`pal_base`: `arg`, `create`,
`try_drop`, `call_pal_auto_with_hint`, `require_pal_usable`) is not among
the repository's files; where its behaviour matters it is modelled from
the spec, as noted on each definition.  Machine floats are modelled by
`ℚ`, Python `None` by `Option`, and the connection by an oracle saying
which create/call operations raise a database error.  Each wrapper
returns the trace of connection operations attempted together with either
its Python return value or the exception raised.
-/

set_option linter.unusedVariables false

deriving instance DecidableEq for Except

namespace PalRandom

/-- Database error raised by the connection collaborator: the two error
classes caught in the source are `hdbcli.dbapi.Error` and `pyodbc.Error`. -/
inductive DbErr
  | dbapiErr (msg : String)
  | pyodbcErr (msg : String)
deriving DecidableEq, Repr

/-- Errors a wrapper call can surface to its caller: `ValueError` raised by
the local validation code (`invalidArg`), the `ValueError` raised by
`pal_base.arg` for a missing required parameter or a value of the wrong
declared type (`missingRequired` / `typeMismatch`, modelled from the spec),
a Python `TypeError` such as comparing `None` with a number, a Python
`ZeroDivisionError`, and a re-raised database error. -/
inductive PalErr
  | invalidArg (msg : String)
  | missingRequired (p : String)
  | typeMismatch (p : String)
  | typeErr (msg : String)
  | zeroDivision
  | remoteErr (e : DbErr)
deriving DecidableEq, Repr

/-- One operation issued on the database connection, as recorded in a
call's trace: creating a scratch table, invoking a PAL procedure with a
named result table, or a best-effort drop attempt from `try_drop`. -/
inductive DbOp
  | create (tbl : String)
  | callPal (proc : String) (resTbl : String)
  | tryDropOne (tbl : String)
deriving DecidableEq, Repr

/-- The connection collaborator, modelled by which operations fail:
`createErr t` is the database error raised when creating table `t` (`none`
when creation succeeds) and `callErr p` likewise for invoking procedure
`p`.  Errors during `try_drop` are swallowed by the source, so they never
influence a wrapper's result and need no oracle. -/
structure Conn where
  createErr : String → Option DbErr
  callErr : String → Option DbErr

/-- A connection on which every create and call succeeds. -/
def cleanConn : Conn := ⟨fun _ => none, fun _ => none⟩

/-- Python comparison `x <= y` where `x` may be `None`: comparing `None`
with a number raises `TypeError` in Python 3. -/
def pyLe (x : Option ℚ) (y : ℚ) : Except PalErr Bool :=
  match x with
  | none => .error (.typeErr "'<=' not supported between instances of 'NoneType' and 'int'")
  | some v => .ok (decide (v ≤ y))

/-- Python `int(x)` on a float: truncation toward zero. -/
def pyInt (q : ℚ) : ℤ := if 0 ≤ q then ⌊q⌋ else ⌈q⌉

/-- Value of one `(NAME, VALUE)` row of a distribution-parameter table:
the source mixes strings (the distribution name) with numbers and `None`. -/
inductive DVal
  | str (v : String)
  | num (v : Option ℚ)
deriving DecidableEq, Repr

/-- Table names generated by `_rds` for one invocation (source lines
61–65): `#<DISTRIBUTIONNAME>_<role>_<unique_id>` for the three roles
`DISTRIBUTION_PARAMETER`, `PARAMETER`, `RESULT` sharing one identifier. -/
def rdsTables (dist_name uid : String) : List String :=
  ["DISTRIBUTION_PARAMETER", "PARAMETER", "RESULT"].map
    (fun role => "#" ++ dist_name ++ "_" ++ role ++ "_" ++ uid)

/-- `dict(dist_params)['DISTRIBUTIONNAME']` (source line 62).  No caller
passes duplicate keys, so first-match lookup agrees with Python's dict. -/
def distName (dist_params : List (String × DVal)) : String :=
  match List.lookup "DISTRIBUTIONNAME" dist_params with
  | some (DVal.str s) => s
  | _ => ""

/-- `try_drop(conn_context, tables)`: attempts to drop each named table;
errors during dropping are swallowed (best-effort cleanup).  The trace
records one drop attempt per name. -/
def try_drop (tables : List String) : List DbOp :=
  tables.map DbOp.tryDropOne

/-- One row of the generic `(name, int_value, double_value, string_value)`
parameter-table shape, keeping the source's tuple positions: the first
slot is numeric because `mcmc` places the float `stepsize` values there. -/
structure ParamRow where
  name : String
  intVal : Option ℚ
  dblVal : Option ℚ
  strVal : Option String
deriving DecidableEq, Repr

/-- The `general_params` rows built by `_rds` (source lines 67–69) and
passed to `PAL_DISTRIBUTION_RANDOM` inside the parameter table. -/
def rdsGeneralParams (num_random : ℤ) (seed : Option ℤ) (thread_ratio : Option ℚ) :
    List ParamRow :=
  [⟨"NUM_RANDOM", some (num_random : ℚ), none, none⟩,
   ⟨"SEED", seed.map (fun z => (z : ℚ)), none, none⟩,
   ⟨"THREAD_RATIO", none, thread_ratio, none⟩]

/-- `_rds(conn_context, dist_params, num_random, seed, thread_ratio)`
(source lines 52–85), the shared implementation of the univariate
wrappers: checks `num_random >= 0`, derives the three table names from a
per-call unique identifier (`uuid.uuid1()`-based, here the argument
`unique_id`), creates the distribution-parameter table, invokes
`PAL_DISTRIBUTION_RANDOM` (the general parameter rows
`rdsGeneralParams num_random seed thread_ratio` travel inside that call),
and returns `conn_context.table(res_tbl)`.  On a database error it drops
all three generated names via `try_drop` and re-raises the same error.
`require_pal_usable` and the `arg` coercions, which are identity on the
well-typed values modelled here, come from `pal_base` (not among the
repository's files) and are modelled from the spec as no-ops. -/
def _rds (conn : Conn) (dist_params : List (String × DVal))
    (num_random : ℤ) (seed : Option ℤ) (thread_ratio : Option ℚ)
    (unique_id : String) : List DbOp × Except PalErr String :=
  if num_random < 0 then
    ([], .error (.invalidArg
      "Parameter num_random should be greater than or equal to zero."))
  else
    let dn := distName dist_params
    let dist_param_tbl := "#" ++ dn ++ "_DISTRIBUTION_PARAMETER_" ++ unique_id
    let res_tbl := "#" ++ dn ++ "_RESULT_" ++ unique_id
    match conn.createErr dist_param_tbl with
    | some e =>
        ([DbOp.create dist_param_tbl] ++ try_drop (rdsTables dn unique_id),
         .error (.remoteErr e))
    | none =>
        match conn.callErr "PAL_DISTRIBUTION_RANDOM" with
        | some e =>
            ([DbOp.create dist_param_tbl,
              DbOp.callPal "PAL_DISTRIBUTION_RANDOM" res_tbl] ++
               try_drop (rdsTables dn unique_id),
             .error (.remoteErr e))
        | none =>
            ([DbOp.create dist_param_tbl,
              DbOp.callPal "PAL_DISTRIBUTION_RANDOM" res_tbl],
             .ok res_tbl)

/-- `bernoulli(conn_context, p=0.5, num_random=100, seed=None,
thread_ratio=None)` (source lines 221–310): validates `0 <= p <= 1`
before any connection interaction, then delegates to `_rds`. -/
def bernoulli (conn : Conn) (p : ℚ) (num_random : ℤ) (seed : Option ℤ)
    (thread_ratio : Option ℚ) (uid : String) : List DbOp × Except PalErr String :=
  if p < 0 ∨ p > 1 then
    ([], .error (.invalidArg "Parameter p should be in the range of 0 and 1."))
  else
    _rds conn [("DISTRIBUTIONNAME", DVal.str "BERNOULLI"),
               ("SUCCESS_FRACTION", DVal.num (some p))] num_random seed thread_ratio uid

/-- `binomial(conn_context, n=1, p=0.5, ...)` (source lines 412–515):
checks `0 <= p <= 1` then `n >= 0` before delegating to `_rds`. -/
def binomial (conn : Conn) (n : ℤ) (p : ℚ) (num_random : ℤ) (seed : Option ℤ)
    (thread_ratio : Option ℚ) (uid : String) : List DbOp × Except PalErr String :=
  if p < 0 ∨ p > 1 then
    ([], .error (.invalidArg "Parameter p should be in the range of 0 and 1."))
  else if n < 0 then
    ([], .error (.invalidArg "Parameter n should be at least zero."))
  else
    _rds conn [("DISTRIBUTIONNAME", DVal.str "BINOMIAL"),
               ("SUCCESS_FRACTION", DVal.num (some p)),
               ("TRIALS", DVal.num (some (n : ℚ)))] num_random seed thread_ratio uid

/-- `geometric(conn_context, p=0.5, ...)` (source lines 1076–1165):
checks `0 <= p <= 1` (message without a final period, as in the source)
before delegating to `_rds`. -/
def geometric (conn : Conn) (p : ℚ) (num_random : ℤ) (seed : Option ℤ)
    (thread_ratio : Option ℚ) (uid : String) : List DbOp × Except PalErr String :=
  if p < 0 ∨ p > 1 then
    ([], .error (.invalidArg "Parameter p should be in the range of 0 and 1"))
  else
    _rds conn [("DISTRIBUTIONNAME", DVal.str "GEOMETRIC"),
               ("SUCCESS_FRACTION", DVal.num (some p))] num_random seed thread_ratio uid

/-- `negative_binomial(conn_context, n=1, p=0.5, ...)` (source lines
1269–1373): `n` is accepted as a number and truncated with `int(n)`, then
`n > 0` and `0 <= p <= 1` are checked in that order before `_rds`. -/
def negative_binomial (conn : Conn) (n : ℚ) (p : ℚ) (num_random : ℤ)
    (seed : Option ℤ) (thread_ratio : Option ℚ) (uid : String) :
    List DbOp × Except PalErr String :=
  let nInt := pyInt n
  if nInt ≤ 0 then
    ([], .error (.invalidArg "Parameter n should be greater than zero."))
  else if p < 0 ∨ p > 1 then
    ([], .error (.invalidArg "Parameter p should be in the range of 0 and 1."))
  else
    _rds conn [("DISTRIBUTIONNAME", DVal.str "NEGATIVE_BINOMIAL"),
               ("SUCCESSES", DVal.num (some (nInt : ℚ))),
               ("SUCCESS_FRACTION", DVal.num (some p))] num_random seed thread_ratio uid

/-- `normal(conn_context, mean=0, sigma=None, variance=None, ...)`
(source lines 1375–1486): rejects `sigma` and `variance` supplied
together, then evaluates `sigma <= 0` — a Python `TypeError` when `sigma`
is `None` — before delegating to `_rds`. -/
def normal (conn : Conn) (mean : ℚ) (sigma variance : Option ℚ)
    (num_random : ℤ) (seed : Option ℤ) (thread_ratio : Option ℚ) (uid : String) :
    List DbOp × Except PalErr String :=
  if sigma.isSome && variance.isSome then
    ([], .error (.invalidArg
      "Parameters variance and sigma cannot be used together. Please choose one from them."))
  else
    match pyLe sigma 0 with
    | .error e => ([], .error e)
    | .ok true => ([], .error (.invalidArg "Parameter sigma should be greater than zero."))
    | .ok false =>
        _rds conn [("DISTRIBUTIONNAME", DVal.str "NORMAL"),
                   ("MEAN", DVal.num (some mean)),
                   ("VARIANCE", DVal.num variance),
                   ("SD", DVal.num sigma)] num_random seed thread_ratio uid

/-- Insertion of a number into an already sorted list: one step of the
model of Python's `sorted`. -/
def insertQ (x : ℚ) : List ℚ → List ℚ
  | [] => [x]
  | y :: ys => if x ≤ y then x :: y :: ys else y :: insertQ x ys

/-- Python `sorted` on a list of numbers (ascending insertion sort; on a
total order it produces the same list as any correct sort). -/
def pySorted (l : List ℚ) : List ℚ := l.foldr insertQ []

/-- `pert(conn_context, minimum=-1, mode=0, maximum=1, scale=4, ...)`
(source lines 1488–1603): raises when
`sorted([minimum, mode, maximum]) != [minimum, mode, maximum]`, otherwise
delegates to `_rds`. -/
def pert (conn : Conn) (minimum mode maximum scale : ℚ)
    (num_random : ℤ) (seed : Option ℤ) (thread_ratio : Option ℚ) (uid : String) :
    List DbOp × Except PalErr String :=
  if pySorted [minimum, mode, maximum] ≠ [minimum, mode, maximum] then
    ([], .error (.invalidArg
      "minimum should be less than or equal to mode, and mode should be less than or equal to maximum."))
  else
    _rds conn [("DISTRIBUTIONNAME", DVal.str "PERT"),
               ("MIN", DVal.num (some minimum)),
               ("MODE", DVal.num (some mode)),
               ("MAX", DVal.num (some maximum)),
               ("SCALE", DVal.num (some scale))] num_random seed thread_ratio uid

/-- Table names generated by `multinomial` (source lines 192–195): the
same three roles as `_rds`, prefixed `#MULTINOMIAL`. -/
def multinomialTables (uid : String) : List String :=
  ["DISTRIBUTION_PARAMETER", "PARAMETER", "RESULT"].map
    (fun role => "#MULTINOMIAL_" ++ role ++ "_" ++ uid)

/-- `multinomial(conn_context, n, pvals, num_random=100, seed=None,
thread_ratio=None)` (source lines 90–219): `n` is required
(`arg('n', n, int, True)`, modelled from the spec as raising a
`ValueError` naming `n` when absent); `pvals` entries must be numbers
`>= 0` (entries are modelled as rationals, so the `isinstance` arm of the
check holds by construction); `num_random >= 0` is checked; then the
scratch table is created and `PAL_DISTRIBUTION_RANDOM_MULTIVARIATE`
invoked, with the same drop-all-then-re-raise handling as `_rds`. -/
def multinomial (conn : Conn) (n : Option ℤ) (pvals : List ℚ)
    (num_random : ℤ) (seed : Option ℤ) (thread_ratio : Option ℚ) (uid : String) :
    List DbOp × Except PalErr String :=
  match n with
  | none => ([], .error (.missingRequired "n"))
  | some _ =>
    if pvals.any (fun pv => decide (pv < 0)) then
      ([], .error (.invalidArg
        "Parameter pvals should be a tuple of non-negative floats and ints."))
    else if num_random < 0 then
      ([], .error (.invalidArg
        "Parameter num_random should be greater than or equal to zero."))
    else
      let dist_param_tbl := "#MULTINOMIAL_DISTRIBUTION_PARAMETER_" ++ uid
      let res_tbl := "#MULTINOMIAL_RESULT_" ++ uid
      match conn.createErr dist_param_tbl with
      | some e =>
          ([DbOp.create dist_param_tbl] ++ try_drop (multinomialTables uid),
           .error (.remoteErr e))
      | none =>
          match conn.callErr "PAL_DISTRIBUTION_RANDOM_MULTIVARIATE" with
          | some e =>
              ([DbOp.create dist_param_tbl,
                DbOp.callPal "PAL_DISTRIBUTION_RANDOM_MULTIVARIATE" res_tbl] ++
                 try_drop (multinomialTables uid),
               .error (.remoteErr e))
          | none =>
              ([DbOp.create dist_param_tbl,
                DbOp.callPal "PAL_DISTRIBUTION_RANDOM_MULTIVARIATE" res_tbl],
               .ok res_tbl)

/-- Scalar-or-vector value of an `mcmc` distribution parameter (floats,
ints, lists and `numpy` arrays in the source; arrays are already handled
flattened, as `reshape([-1])` does). -/
inductive MVal
  | num (q : ℚ)
  | vec (l : List ℚ)
deriving DecidableEq, Repr

/-- The `dstr_param_lst` table of `mcmc` (source lines 2359–2381): each
supported distribution kind with its ordered list of parameter names.
Note the misspelled key `mutistudent_t`. -/
def dstr_param_lst : List (String × List String) :=
  [("normal", ["mu", "sigma"]),
   ("skew_normal", ["xi", "omega", "alpha"]),
   ("student_t", ["nu", "mu", "sigma"]),
   ("cauchy", ["mu", "sigma"]),
   ("laplace", ["mu", "sigma"]),
   ("logistic", ["mu", "sigma"]),
   ("gumbel", ["mu", "beta"]),
   ("exponential", ["beta"]),
   ("chi_square", ["nu"]),
   ("invchi_square", ["nu"]),
   ("weibull", ["alpha", "sigma"]),
   ("frechet", ["alpha", "sigma"]),
   ("rayleigh", ["sigma"]),
   ("multinormal", ["mu", "sigma"]),
   ("multinormalprec", ["mu", "omega"]),
   ("multinormalcholesky", ["mu", "L"]),
   ("mutistudent_t", ["nu", "mu", "sigma"]),
   ("dirichlet", ["alpha"]),
   ("lognormal", ["mu", "sigma"]),
   ("invgamma", ["alpha", "beta"]),
   ("beta", ["alpha", "beta"]),
   ("pareto", ["y_min", "alpha"]),
   ("lomax", ["lambda", "alpha"])]

/-- Whether `sub` is a prefix of `l` (over characters). -/
def listStarts : List Char → List Char → Bool
  | [], _ => true
  | _ :: _, [] => false
  | a :: as, b :: bs => a == b && listStarts as bs

/-- Whether `sub` occurs contiguously inside `l`. -/
def listHasSub (sub : List Char) : List Char → Bool
  | [] => listStarts sub []
  | b :: bs => listStarts sub (b :: bs) || listHasSub sub bs

/-- Python's substring test `sub in s`. -/
def hasSub (sub s : String) : Bool := listHasSub sub.data s.data

/-- Python's `str.upper()`. -/
def pyUpper (s : String) : String := ⟨s.data.map Char.toUpper⟩

/-- Modelled from the spec: `pal_base.arg` as used for the `mcmc`
distribution parameters — checks the value against its declared type
(scalar number versus list/ndarray) raising a classified `InvalidArgument`
on a mismatch, and raises an `InvalidArgument` naming the parameter when a
required value is absent. -/
def argM (name : String) (v : Option MVal) (expectVec req : Bool) :
    Except PalErr (Option MVal) :=
  match v with
  | none => if req then .error (.missingRequired name) else .ok none
  | some (MVal.num q) =>
      if expectVec then .error (.typeMismatch name) else .ok (some (MVal.num q))
  | some (MVal.vec l) =>
      if expectVec then .ok (some (MVal.vec l)) else .error (.typeMismatch name)

/-- The resolved `mcmc` parameter values after the per-parameter `arg`
checks and the deprecated-alias fallbacks, plus the inferred dimension
(`dim` in the source). -/
structure Resolved where
  mu : MVal
  sigma : MVal
  xi : MVal
  alpha : MVal
  beta : MVal
  nu : MVal
  omega : Option MVal
  L : Option MVal
  y_min : Option MVal
  lambda_ : Option MVal
  dim : ℕ
deriving DecidableEq, Repr

/-- Condition `'multi' in distribution` (the declared-type and `required`
condition of `mu`, source lines 2407–2409). -/
def muVecKind (d : String) : Bool := hasSub "multi" d

/-- Condition `'multi' in distribution or distribution == 'lognormal'`
(`required` of `mu`, source line 2409). -/
def muRequiredKind (d : String) : Bool := muVecKind d || d == "lognormal"

/-- Condition `distribution in ['multinormal', 'multistudent_t']` (both the
declared type and `required` of `sigma`, source lines 2416–2419; note it
tests the correctly spelled `multistudent_t`, which is not a key of
`dstr_param_lst`). -/
def sigmaVecKind (d : String) : Bool := d == "multinormal" || d == "multistudent_t"

/-- Condition `distribution == 'dirichlet'` (declared type of `alpha`,
source line 2428). -/
def alphaVecKind (d : String) : Bool := d == "dirichlet"

/-- Condition `distribution in ['dirichlet', 'weibull', 'frechet', 'beta',
'pareto', 'lomax', 'invgamma']` (`required` of `alpha`, lines 2429–2432). -/
def alphaRequiredKind (d : String) : Bool :=
  d == "dirichlet" || d == "weibull" || d == "frechet" || d == "beta" ||
  d == "pareto" || d == "lomax" || d == "invgamma"

/-- Condition `distribution in ['invgamma', 'beta']` (`required` of
`beta`, source line 2440). -/
def betaRequiredKind (d : String) : Bool := d == "invgamma" || d == "beta"

/-- Condition `distribution == 'invchi_square'` (`required` of `nu`,
source line 2444). -/
def nuRequiredKind (d : String) : Bool := d == "invchi_square"

/-- Condition `'normalprec' in distribution` (declared type of `omega`,
source line 2448). -/
def omegaVecKind (d : String) : Bool := hasSub "normalprec" d

/-- Condition `'diri' in distribution` (guard of the `alpha` dimension
update, source line 2435). -/
def diriKind (d : String) : Bool := hasSub "diri" d

/-- Parameter resolution of `mcmc` (source lines 2406–2468), in source
order: each `arg` call with its declared type and `required` condition,
then the deprecated-alias fallback when the newer parameter is absent —
`mu ← location`, `sigma ← scale`, `xi ← location`, `alpha ← shape`,
`beta ← scale` for gumbel and `1.0/scale` otherwise (Python raises
`ZeroDivisionError` when `scale == 0`), `nu ← dof`.  `omega`, `L`,
`y_min` and `lambda_` have no fallback.  `dim` is the length of a
list-valued `mu` for the `'multi'` kinds, or of a list-valued `alpha`
for the `'diri'` kind, and `1` otherwise. -/
def mcmcResolve (distribution : String) (location scale shape dof : ℚ)
    (mu sigma xi alpha beta nu omega L y_min lambda_ : Option MVal) :
    Except PalErr Resolved := do
  let muR ← argM "mu" mu (muVecKind distribution) (muRequiredKind distribution)
  let dim1 : ℕ := match muR with
    | some (MVal.vec l) => if muVecKind distribution then l.length else 1
    | _ => 1
  let muV := muR.getD (MVal.num location)
  let sigmaR ← argM "sigma" sigma (sigmaVecKind distribution) (sigmaVecKind distribution)
  let sigmaV := sigmaR.getD (MVal.num scale)
  let xiR ← argM "xi" xi false false
  let xiV := xiR.getD (MVal.num location)
  let alphaR ← argM "alpha" alpha (alphaVecKind distribution)
      (alphaRequiredKind distribution)
  let dim2 : ℕ := match alphaR with
    | some (MVal.vec l) => if diriKind distribution then l.length else dim1
    | _ => dim1
  let alphaV := alphaR.getD (MVal.num shape)
  let betaR ← argM "beta" beta false (betaRequiredKind distribution)
  let betaV ← match betaR with
    | some v => pure v
    | none =>
        if distribution == "gumbel" then pure (MVal.num scale)
        else if scale == 0 then Except.error PalErr.zeroDivision
        else pure (MVal.num (1 / scale))
  let nuR ← argM "nu" nu false (nuRequiredKind distribution)
  let nuV := nuR.getD (MVal.num dof)
  let omegaR ← argM "omega" omega (omegaVecKind distribution)
      (distribution == "multinormalprec")
  let LR ← argM "L" L true (distribution == "multinormalcholesky")
  let yR ← argM "y_min" y_min false (distribution == "pareto")
  let lamR ← argM "lambda_" lambda_ false (distribution == "lomax")
  pure ⟨muV, sigmaV, xiV, alphaV, betaV, nuV, omegaR, LR, yR, lamR, dim2⟩

/-- Encoded value list for one entry of the `DISTRIBUTION_PARAM` blob:
`[param_value[param]]` for a scalar, the list itself for a list, and a
single `None` entry for a parameter that is absent with no fallback. -/
def encodeMVal : Option MVal → List (Option ℚ)
  | none => [none]
  | some (MVal.num q) => [some q]
  | some (MVal.vec l) => l.map some

/-- The `param_value` mapping of `mcmc` (source lines 2464–2468): resolved
value of each parameter name (the key for `lambda_` is `"lambda"`). -/
def paramValue (r : Resolved) : String → Option MVal
  | "mu" => some r.mu
  | "sigma" => some r.sigma
  | "xi" => some r.xi
  | "alpha" => some r.alpha
  | "beta" => some r.beta
  | "nu" => some r.nu
  | "omega" => r.omega
  | "L" => r.L
  | "y_min" => r.y_min
  | "lambda" => r.lambda_
  | _ => none

/-- The `distr_param` blob of `mcmc` (source lines 2469–2470): for each
parameter of the chosen kind, its upper-cased name mapped to the encoded
value list.  The source serialises this dictionary with `str(...)` into
the `DISTRIBUTION_PARAM` row; the structured content is modelled. -/
def mcmcDistrParam (distribution : String) (r : Resolved) :
    List (String × List (Option ℚ)) :=
  ((List.lookup distribution dstr_param_lst).getD []).map
    (fun pn => (pyUpper pn, encodeMVal (paramValue r pn)))

/-- The sampler-tuning arguments of `mcmc` (`chain_iter` … `max_depth`),
all defaulting to `None`. -/
structure McmcTuning where
  chain_iter : Option ℤ
  random_state : Option ℤ
  init_radius : Option ℚ
  adapt : Option Bool
  warmup : Option ℤ
  thin : Option ℤ
  adapt_gamma : Option ℚ
  adapt_delta : Option ℚ
  adapt_kappa : Option ℚ
  adapt_offset : Option ℚ
  adapt_init_buffer : Option ℤ
  adapt_term_buffer : Option ℤ
  adapt_window : Option ℤ
  stepsize : Option ℚ
  stepsize_jitter : Option ℚ
  max_depth : Option ℤ
deriving DecidableEq, Repr

/-- All sampler-tuning arguments left at their `None` defaults. -/
def defaultTuning : McmcTuning :=
  ⟨none, none, none, none, none, none, none, none,
   none, none, none, none, none, none, none, none⟩

/-- The generic tuning rows of `mcmc` (source lines 2475–2493): `ITER` …
`MAX_TREEDEPTH`, then the `ADAPT_*` rows added unless `adapt is False`;
the boolean `ADAPT_ENGAGED` is passed in the integer slot. -/
def mcmcExtendRows (t : McmcTuning) : List ParamRow :=
  [⟨"ITER", t.chain_iter.map (fun z => (z : ℚ)), none, none⟩,
   ⟨"RANDOM_SEED", t.random_state.map (fun z => (z : ℚ)), none, none⟩,
   ⟨"INIT_RADIUS", none, t.init_radius, none⟩,
   ⟨"ADAPT_ENGAGED", t.adapt.map (fun b => if b then 1 else 0), none, none⟩,
   ⟨"WARMUP", t.warmup.map (fun z => (z : ℚ)), none, none⟩,
   ⟨"THIN", t.thin.map (fun z => (z : ℚ)), none, none⟩,
   ⟨"STEPSIZE", t.stepsize, none, none⟩,
   ⟨"STEPSIZE_JITTER", t.stepsize_jitter, none, none⟩,
   ⟨"MAX_TREEDEPTH", t.max_depth.map (fun z => (z : ℚ)), none, none⟩] ++
  (if t.adapt == some false then [] else
   [⟨"ADAPT_GAMMA", none, t.adapt_gamma, none⟩,
    ⟨"ADAPT_DELTA", none, t.adapt_delta, none⟩,
    ⟨"ADAPT_KAPPA", none, t.adapt_kappa, none⟩,
    ⟨"ADAPT_T0", none, t.adapt_offset, none⟩,
    ⟨"ADAPT_INIT_BUFFER", t.adapt_init_buffer.map (fun z => (z : ℚ)), none, none⟩,
    ⟨"ADAPT_TERM_BUFFER", t.adapt_term_buffer.map (fun z => (z : ℚ)), none, none⟩,
    ⟨"ADAPT_WINDOW", t.adapt_window.map (fun z => (z : ℚ)), none, none⟩])

/-- The encoded `param_rows` content of `mcmc`, with the first three rows
(`DISTRIBUTION_NAME`, `DISTRIBUTION_PARAM`, `DIMENSION`) kept structured
and the tuning rows as generic `ParamRow`s. -/
structure McmcParamRows where
  distribution_name : String
  distribution_param : List (String × List (Option ℚ))
  dimension : ℕ
  rows : List ParamRow
deriving DecidableEq, Repr

/-- Validation and encoding stage of `mcmc`: the distribution kind is
checked against the keys of `dstr_param_lst` (`arg` with a dict type,
modelled from the spec as classifying an unknown kind as an
`InvalidArgument` naming `distribution`), then the parameters are
resolved by `mcmcResolve` and encoded. -/
def mcmcParams (distribution : String) (location scale shape dof : ℚ)
    (t : McmcTuning)
    (mu sigma xi alpha beta nu omega L y_min lambda_ : Option MVal) :
    Except PalErr McmcParamRows :=
  if (List.lookup distribution dstr_param_lst).isNone then
    .error (.typeMismatch "distribution")
  else
    match mcmcResolve distribution location scale shape dof
        mu sigma xi alpha beta nu omega L y_min lambda_ with
    | .error e => .error e
    | .ok r =>
        .ok ⟨distribution, mcmcDistrParam distribution r, r.dim, mcmcExtendRows t⟩

/-- Temporary table names generated by `mcmc` (source lines 2494–2497):
prefix `#PAL_MCMC`, roles `PARAMETER` and `RESULT` only, `_TBL` before
the shared unique identifier. -/
def mcmcTables (uid : String) : List String :=
  ["PARAMETER", "RESULT"].map (fun n => "#PAL_MCMC_" ++ n ++ "_TBL_" ++ uid)

/-- `mcmc(conn_context, distribution, …)` (source lines 1984–2510):
validates and encodes via `mcmcParams`, then invokes `PAL_MCMC` with the
parameter table and the result-table name, dropping both generated names
and re-raising the same error on a database failure.  The source function
has no `return` statement, so on success Python returns `None`, modelled
as `Except.ok ()`. -/
def mcmc (conn : Conn) (distribution : String) (location scale shape dof : ℚ)
    (t : McmcTuning)
    (mu sigma xi alpha beta nu omega L y_min lambda_ : Option MVal)
    (uid : String) : List DbOp × Except PalErr Unit :=
  match mcmcParams distribution location scale shape dof t
      mu sigma xi alpha beta nu omega L y_min lambda_ with
  | .error e => ([], .error e)
  | .ok _ =>
      let result_tbl := "#PAL_MCMC_RESULT_TBL_" ++ uid
      match conn.callErr "PAL_MCMC" with
      | some e =>
          ([DbOp.callPal "PAL_MCMC" result_tbl] ++ try_drop (mcmcTables uid),
           .error (.remoteErr e))
      | none => ([DbOp.callPal "PAL_MCMC" result_tbl], .ok ())

/-- Connection on which creating the bernoulli scratch table raises a
`dbapi` error; used to exercise the failure path at a concrete input. -/
def failConn : Conn :=
  ⟨fun t => if t = "#BERNOULLI_DISTRIBUTION_PARAMETER_U"
            then some (DbErr.dbapiErr "boom") else none,
   fun _ => none⟩

/-- Inserting below the head keeps the head in place. -/
theorem insertQ_le (x y : ℚ) (ys : List ℚ) (h : x ≤ y) :
    insertQ x (y :: ys) = x :: y :: ys := by simp [insertQ, h]

/-- Inserting above the head pushes the insertion into the tail. -/
theorem insertQ_gt (x y : ℚ) (ys : List ℚ) (h : ¬ x ≤ y) :
    insertQ x (y :: ys) = y :: insertQ x ys := by simp [insertQ, h]

/-- A three-element list is left unchanged by Python's `sorted` exactly
when it is already non-strictly ordered — the shape of `pert`'s
validation test. -/
theorem pySorted3_iff (a b c : ℚ) :
    pySorted [a, b, c] = [a, b, c] ↔ a ≤ b ∧ b ≤ c := by
  constructor
  · intro h
    unfold pySorted at h
    simp only [List.foldr] at h
    rw [show insertQ c [] = [c] from rfl] at h
    rcases le_or_lt b c with hbc | hbc
    · rw [insertQ_le _ _ _ hbc] at h
      rcases le_or_lt a b with hab | hab
      · exact ⟨hab, hbc⟩
      · rw [insertQ_gt _ _ _ (not_le.mpr hab)] at h
        rcases le_or_lt a c with hac | hac
        · rw [insertQ_le _ _ _ hac] at h
          injection h with h1 h
          exact absurd h1.symm (ne_of_gt hab)
        · rw [insertQ_gt _ _ _ (not_le.mpr hac),
              show insertQ a [] = [a] from rfl] at h
          injection h with h1 h
          exact absurd h1.symm (ne_of_gt hab)
    · rw [insertQ_gt _ _ _ (not_le.mpr hbc),
          show insertQ b [] = [b] from rfl] at h
      rcases le_or_lt a c with hac | hac
      · rw [insertQ_le _ _ _ hac] at h
        injection h with h1 h
        injection h with h2 h
        exact absurd h2.symm (ne_of_gt hbc)
      · rw [insertQ_gt _ _ _ (not_le.mpr hac)] at h
        rcases le_or_lt a b with hab | hab
        · rw [insertQ_le _ _ _ hab] at h
          injection h with h1 h
          exact absurd h1 (ne_of_lt hac)
        · rw [insertQ_gt _ _ _ (not_le.mpr hab),
              show insertQ a [] = [a] from rfl] at h
          injection h with h1 h
          exact absurd h1 (ne_of_lt hac)
  · rintro ⟨hab, hbc⟩
    simp [pySorted, insertQ, hab, hbc]

/-- Resolution of `mcmc` parameters when every newer named parameter is
absent, for any kind without required parameters: each value falls back
to its deprecated alias, with `beta` getting `scale` for gumbel and
`1/scale` otherwise. -/
theorem mcmcResolve_none (d : String) (loc scale sh df : ℚ)
    (h1 : muRequiredKind d = false) (h2 : sigmaVecKind d = false)
    (h3 : alphaRequiredKind d = false) (h4 : betaRequiredKind d = false)
    (h5 : nuRequiredKind d = false) (h6 : (d == "multinormalprec") = false)
    (h7 : (d == "multinormalcholesky") = false) (h8 : (d == "pareto") = false)
    (h9 : (d == "lomax") = false) (hs : scale ≠ 0) :
    mcmcResolve d loc scale sh df none none none none none none none none none none
      = .ok ⟨MVal.num loc, MVal.num scale, MVal.num loc, MVal.num sh,
             MVal.num (if d == "gumbel" then scale else 1/scale), MVal.num df,
             none, none, none, none, 1⟩ := by
  rcases hg : d == "gumbel" with _ | _ <;>
    simp [mcmcResolve, argM, h1, h2, h3, h4, h5, h6, h7, h8, h9, hg, hs,
          Except.instMonad, Bind.bind, Except.bind, Pure.pure, Except.pure,
          Option.getD, beq_iff_eq]

/-- Claim C1: when the scratch-table creation or the remote procedure
invocation raises a database error, the wrapper attempts to drop every
temporary table name generated for that call and re-raises the original
error unchanged in kind, returning no result.  Stated for `_rds` (the
shared path of every univariate entry point such as `bernoulli` and
`beta`), for `multinomial`, and for `mcmc`. -/
theorem C1_remote_error_cleanup_and_rethrow :
    (∀ (conn : Conn) (dp : List (String × DVal)) (nr : ℤ) (sd : Option ℤ)
       (tr : Option ℚ) (uid : String) (e : DbErr),
      0 ≤ nr →
      (conn.createErr ("#" ++ distName dp ++ "_DISTRIBUTION_PARAMETER_" ++ uid) = some e ∨
       (conn.createErr ("#" ++ distName dp ++ "_DISTRIBUTION_PARAMETER_" ++ uid) = none ∧
        conn.callErr "PAL_DISTRIBUTION_RANDOM" = some e)) →
      (_rds conn dp nr sd tr uid).2 = .error (.remoteErr e) ∧
      ∀ t ∈ rdsTables (distName dp) uid, DbOp.tryDropOne t ∈ (_rds conn dp nr sd tr uid).1) ∧
    (∀ (conn : Conn) (n : ℤ) (pvals : List ℚ) (nr : ℤ) (sd : Option ℤ)
       (tr : Option ℚ) (uid : String) (e : DbErr),
      0 ≤ nr → (∀ pv ∈ pvals, 0 ≤ pv) →
      (conn.createErr ("#MULTINOMIAL_DISTRIBUTION_PARAMETER_" ++ uid) = some e ∨
       (conn.createErr ("#MULTINOMIAL_DISTRIBUTION_PARAMETER_" ++ uid) = none ∧
        conn.callErr "PAL_DISTRIBUTION_RANDOM_MULTIVARIATE" = some e)) →
      (multinomial conn (some n) pvals nr sd tr uid).2 = .error (.remoteErr e) ∧
      ∀ t ∈ multinomialTables uid,
        DbOp.tryDropOne t ∈ (multinomial conn (some n) pvals nr sd tr uid).1) ∧
    (∀ (conn : Conn) (d : String) (loc scale sh df : ℚ) (tu : McmcTuning)
       (p1 p2 p3 p4 p5 p6 p7 p8 p9 p10 : Option MVal) (uid : String)
       (ps : McmcParamRows) (e : DbErr),
      mcmcParams d loc scale sh df tu p1 p2 p3 p4 p5 p6 p7 p8 p9 p10 = .ok ps →
      conn.callErr "PAL_MCMC" = some e →
      (mcmc conn d loc scale sh df tu p1 p2 p3 p4 p5 p6 p7 p8 p9 p10 uid).2
          = .error (.remoteErr e) ∧
      ∀ t ∈ mcmcTables uid,
        DbOp.tryDropOne t ∈ (mcmc conn d loc scale sh df tu p1 p2 p3 p4 p5 p6 p7 p8 p9 p10 uid).1) := by
  refine ⟨?_, ?_, ?_⟩
  · intro conn dp nr sd tr uid e hnr hfail
    have hlt : ¬ nr < 0 := not_lt.mpr hnr
    rcases hfail with hc | ⟨hc, hcall⟩
    · simp [_rds, hlt, hc, try_drop, rdsTables]
    · simp [_rds, hlt, hc, hcall, try_drop, rdsTables]
  · intro conn n pvals nr sd tr uid e hnr hpos hfail
    have hlt : ¬ nr < 0 := not_lt.mpr hnr
    have hany : pvals.any (fun pv => decide (pv < 0)) = false := by
      simp [List.any_eq_false]
      intro pv hm
      exact hpos pv hm
    rcases hfail with hc | ⟨hc, hcall⟩
    · simp [multinomial, hlt, hany, hc, try_drop, multinomialTables]
    · simp [multinomial, hlt, hany, hc, hcall, try_drop, multinomialTables]
  · intro conn d loc scale sh df tu p1 p2 p3 p4 p5 p6 p7 p8 p9 p10 uid ps e hok hcall
    simp [mcmc, hok, hcall, try_drop, mcmcTables]

/-- Claim C1, exercised at a concrete input: a create failure on the
bernoulli scratch table is re-raised and the RESULT table name is among
the drop attempts. -/
theorem C1_witness :
    (_rds failConn [("DISTRIBUTIONNAME", DVal.str "BERNOULLI")] 100 none none "U").2
      = .error (.remoteErr (DbErr.dbapiErr "boom")) ∧
    DbOp.tryDropOne "#BERNOULLI_RESULT_U"
      ∈ (_rds failConn [("DISTRIBUTIONNAME", DVal.str "BERNOULLI")] 100 none none "U").1 := by
  have h := C1_remote_error_cleanup_and_rethrow.1 failConn
    [("DISTRIBUTIONNAME", DVal.str "BERNOULLI")] 100 none none "U"
    (DbErr.dbapiErr "boom") (by norm_num) (Or.inl rfl)
  exact ⟨h.1, h.2 "#BERNOULLI_RESULT_U" (by simp [rdsTables, distName])⟩

/-- Claim C2 as amended: the scalar success fractions of `bernoulli`,
`binomial`, `geometric` and `negative_binomial` are validated to lie in
`[0, 1]` before any connection interaction, but `multinomial` only
rejects `pvals` entries that are negative (or non-numeric): a tuple of
non-negative entries — including entries greater than 1 — passes
validation and proceeds to table creation and procedure invocation. -/
theorem C2_probability_range_validation :
    (∀ (conn : Conn) (p : ℚ) (nr : ℤ) (sd : Option ℤ) (tr : Option ℚ) (uid : String),
      p < 0 ∨ p > 1 →
      bernoulli conn p nr sd tr uid
        = ([], .error (.invalidArg "Parameter p should be in the range of 0 and 1.")) ∧
      binomial conn 1 p nr sd tr uid
        = ([], .error (.invalidArg "Parameter p should be in the range of 0 and 1.")) ∧
      geometric conn p nr sd tr uid
        = ([], .error (.invalidArg "Parameter p should be in the range of 0 and 1")) ∧
      negative_binomial conn 1 p nr sd tr uid
        = ([], .error (.invalidArg "Parameter p should be in the range of 0 and 1."))) ∧
    (∀ (conn : Conn) (n : ℤ) (pvals : List ℚ) (nr : ℤ) (sd : Option ℤ)
       (tr : Option ℚ) (uid : String),
      (∃ pv ∈ pvals, pv < 0) →
      multinomial conn (some n) pvals nr sd tr uid
        = ([], .error (.invalidArg
            "Parameter pvals should be a tuple of non-negative floats and ints."))) ∧
    (∀ (pvals : List ℚ), (∀ pv ∈ pvals, 0 ≤ pv) →
      multinomial cleanConn (some 10) pvals 100 none none "U"
        = ([DbOp.create "#MULTINOMIAL_DISTRIBUTION_PARAMETER_U",
            DbOp.callPal "PAL_DISTRIBUTION_RANDOM_MULTIVARIATE" "#MULTINOMIAL_RESULT_U"],
           .ok "#MULTINOMIAL_RESULT_U")) := by
  refine ⟨?_, ?_, ?_⟩
  · intro conn p nr sd tr uid hp
    refine ⟨?_, ?_, ?_, ?_⟩ <;>
      simp [bernoulli, binomial, geometric, negative_binomial, pyInt, hp]
  · intro conn n pvals nr sd tr uid hneg
    have hany : pvals.any (fun pv => decide (pv < 0)) = true := by
      obtain ⟨pv, hm, hlt⟩ := hneg
      simp [List.any_eq_true]
      exact ⟨pv, hm, hlt⟩
    simp [multinomial, hany]
  · intro pvals hpos
    have hany : pvals.any (fun pv => decide (pv < 0)) = false := by
      simp [List.any_eq_false]
      intro pv hm
      exact hpos pv hm
    simp [multinomial, hany, cleanConn, try_drop, multinomialTables]

/-- Claim C2, refuting input: the entry `3/2 > 1` of `pvals` is not
rejected — the call creates its scratch table, invokes the procedure and
returns a result handle. -/
theorem C2_counterexample :
    multinomial cleanConn (some 10) [3/10, 3/2] 100 none none "U"
      = ([DbOp.create "#MULTINOMIAL_DISTRIBUTION_PARAMETER_U",
          DbOp.callPal "PAL_DISTRIBUTION_RANDOM_MULTIVARIATE" "#MULTINOMIAL_RESULT_U"],
         .ok "#MULTINOMIAL_RESULT_U")
    ∧ ((3 : ℚ)/2 > 1) := by
  constructor
  · have hany : (([3/10, 3/2] : List ℚ).any (fun pv => decide (pv < 0))) = false := by
      norm_num
    simp [multinomial, hany, cleanConn, try_drop, multinomialTables]
  · norm_num

/-- Claim C2, exercised at a concrete input: `p = 3/2` is rejected by
`bernoulli` with an empty trace. -/
theorem C2_witness :
    bernoulli cleanConn (3/2) 100 none none "U"
      = ([], .error (.invalidArg "Parameter p should be in the range of 0 and 1.")) :=
  (C2_probability_range_validation.1 cleanConn (3/2) 100 none none "U"
    (Or.inr (by norm_num))).1

/-- Claim C3 as amended: a negative `num_random` raises a `ValueError`
locally, before any table creation, in `_rds` (hence in every univariate
entry point) and in `multinomial`; a negative `seed`, however, is not
validated at all — it passes through and the call proceeds to the remote
invocation. -/
theorem C3_num_random_and_seed_validation :
    (∀ (conn : Conn) (dp : List (String × DVal)) (nr : ℤ) (sd : Option ℤ)
       (tr : Option ℚ) (uid : String),
      nr < 0 →
      _rds conn dp nr sd tr uid
        = ([], .error (.invalidArg
            "Parameter num_random should be greater than or equal to zero."))) ∧
    (∀ (conn : Conn) (n : ℤ) (pvals : List ℚ) (nr : ℤ) (sd : Option ℤ)
       (tr : Option ℚ) (uid : String),
      nr < 0 → (∀ pv ∈ pvals, 0 ≤ pv) →
      multinomial conn (some n) pvals nr sd tr uid
        = ([], .error (.invalidArg
            "Parameter num_random should be greater than or equal to zero."))) ∧
    (∀ (s : ℤ),
      bernoulli cleanConn (1/2) 100 (some s) none "U"
        = ([DbOp.create "#BERNOULLI_DISTRIBUTION_PARAMETER_U",
            DbOp.callPal "PAL_DISTRIBUTION_RANDOM" "#BERNOULLI_RESULT_U"],
           .ok "#BERNOULLI_RESULT_U")) := by
  refine ⟨?_, ?_, ?_⟩
  · intro conn dp nr sd tr uid hneg
    simp [_rds, hneg]
  · intro conn n pvals nr sd tr uid hneg hpos
    have hany : pvals.any (fun pv => decide (pv < 0)) = false := by
      simp [List.any_eq_false]
      intro pv hm
      exact hpos pv hm
    simp [multinomial, hany, hneg]
  · intro s
    have hp1 : ¬((1:ℚ)/2 < 0) := by norm_num
    have hp2 : ¬((1:ℚ)/2 > 1) := by norm_num
    simp [bernoulli, hp1, hp2, _rds, distName, cleanConn, try_drop, rdsTables]
    norm_num

/-- Claim C3, refuting input: `seed = -1` raises no error — the call
reaches the remote engine and returns a result handle. -/
theorem C3_counterexample :
    bernoulli cleanConn (1/2) 100 (some (-1)) none "U"
      = ([DbOp.create "#BERNOULLI_DISTRIBUTION_PARAMETER_U",
          DbOp.callPal "PAL_DISTRIBUTION_RANDOM" "#BERNOULLI_RESULT_U"],
         .ok "#BERNOULLI_RESULT_U") := by
  have hp1 : ¬((1:ℚ)/2 < 0) := by norm_num
  have hp2 : ¬((1:ℚ)/2 > 1) := by norm_num
  simp [bernoulli, hp1, hp2, _rds, distName, cleanConn, try_drop, rdsTables]
  norm_num

/-- Claim C3, exercised at a concrete input: `num_random = -1` is
rejected by `_rds` with an empty trace. -/
theorem C3_witness :
    _rds cleanConn [("DISTRIBUTIONNAME", DVal.str "BERNOULLI")] (-1) none none "U"
      = ([], .error (.invalidArg
          "Parameter num_random should be greater than or equal to zero.")) :=
  C3_num_random_and_seed_validation.1 cleanConn
    [("DISTRIBUTIONNAME", DVal.str "BERNOULLI")] (-1) none none "U" (by norm_num)

/-- Claim C4, refuting input: `mcmc(distribution='student_t', mu=0,
sigma=1)` with `nu` omitted raises nothing — the call proceeds to the
remote `PAL_MCMC` invocation and succeeds, `nu` having fallen back to the
default `dof = 1.0`. -/
theorem C4_counterexample :
    mcmc cleanConn "student_t" 0 1 1 1 defaultTuning
      (some (MVal.num 0)) (some (MVal.num 1)) none none none none none none none none "U"
      = ([DbOp.callPal "PAL_MCMC" "#PAL_MCMC_RESULT_TBL_U"], .ok ()) := by
  have k1 : muVecKind "student_t" = false := rfl
  have k2 : muRequiredKind "student_t" = false := rfl
  have k3 : sigmaVecKind "student_t" = false := rfl
  have k4 : alphaVecKind "student_t" = false := rfl
  have k5 : alphaRequiredKind "student_t" = false := rfl
  have k6 : betaRequiredKind "student_t" = false := rfl
  have k7 : nuRequiredKind "student_t" = false := rfl
  have k8 : omegaVecKind "student_t" = false := rfl
  have k9 : ("student_t" == "multinormalprec") = false := rfl
  have k10 : ("student_t" == "multinormalcholesky") = false := rfl
  have k11 : ("student_t" == "pareto") = false := rfl
  have k12 : ("student_t" == "lomax") = false := rfl
  have k13 : ("student_t" == "gumbel") = false := rfl
  have k14 : ((1:ℚ) == 0) = false := by simp
  have h1 : mcmcResolve "student_t" 0 1 1 1
      (some (MVal.num 0)) (some (MVal.num 1)) none none none none none none none none
      = .ok ⟨MVal.num 0, MVal.num 1, MVal.num 0, MVal.num 1,
             MVal.num 1, MVal.num 1, none, none, none, none, 1⟩ := by
    norm_num [mcmcResolve, argM, k1, k2, k3, k4, k5, k6, k7, k8, k9, k10, k11,
              k12, k13, k14, Except.instMonad, Bind.bind, Except.bind,
              Pure.pure, Except.pure, Option.getD]
  have hlk : List.lookup "student_t" dstr_param_lst = some ["nu", "mu", "sigma"] := rfl
  simp [mcmc, mcmcParams, h1, hlk, cleanConn, try_drop, mcmcTables]

/-- Claim C4 as amended: for `distribution='student_t'` an omitted `nu`
does not raise — `nu` is required only for `'invchi_square'` — and the
encoded `NU` value is the deprecated `dof` alias; for `'invchi_square'`
an omitted `nu` does raise an `InvalidArgument` naming `nu` before any
remote call. -/
theorem C4_mcmc_student_t_nu_fallback :
    ∀ (loc scale sh df m s : ℚ), scale ≠ 0 →
      mcmcParams "student_t" loc scale sh df defaultTuning
        (some (MVal.num m)) (some (MVal.num s)) none none none none none none none none
        = .ok ⟨"student_t", [("NU", [some df]), ("MU", [some m]), ("SIGMA", [some s])], 1,
               mcmcExtendRows defaultTuning⟩ ∧
      mcmcParams "invchi_square" loc scale sh df defaultTuning
        none none none none none none none none none none
        = .error (.missingRequired "nu") := by
  intro loc scale sh df m s hs
  have k1 : muVecKind "student_t" = false := rfl
  have k2 : muRequiredKind "student_t" = false := rfl
  have k3 : sigmaVecKind "student_t" = false := rfl
  have k4 : alphaVecKind "student_t" = false := rfl
  have k5 : alphaRequiredKind "student_t" = false := rfl
  have k6 : betaRequiredKind "student_t" = false := rfl
  have k7 : nuRequiredKind "student_t" = false := rfl
  have k8 : omegaVecKind "student_t" = false := rfl
  have k9 : ("student_t" == "multinormalprec") = false := rfl
  have k10 : ("student_t" == "multinormalcholesky") = false := rfl
  have k11 : ("student_t" == "pareto") = false := rfl
  have k12 : ("student_t" == "lomax") = false := rfl
  have k13 : ("student_t" == "gumbel") = false := rfl
  have hsb : (scale == 0) = false := by simp [beq_iff_eq, hs]
  constructor
  · have h1 : mcmcResolve "student_t" loc scale sh df
        (some (MVal.num m)) (some (MVal.num s)) none none none none none none none none
        = .ok ⟨MVal.num m, MVal.num s, MVal.num loc, MVal.num sh,
               MVal.num (1/scale), MVal.num df, none, none, none, none, 1⟩ := by
      simp [mcmcResolve, argM, k1, k2, k3, k4, k5, k6, k7, k8, k9, k10, k11,
            k12, k13, hsb, Except.instMonad, Bind.bind, Except.bind,
            Pure.pure, Except.pure, Option.getD]
    have hlk : List.lookup "student_t" dstr_param_lst = some ["nu", "mu", "sigma"] := rfl
    have hlk2 : (List.lookup "student_t" dstr_param_lst).isNone = false := by simp [hlk]
    have hu1 : pyUpper "nu" = "NU" := rfl
    have hu2 : pyUpper "mu" = "MU" := rfl
    have hu3 : pyUpper "sigma" = "SIGMA" := rfl
    simp [mcmcParams, h1, hlk, hlk2, mcmcDistrParam, paramValue, encodeMVal,
          hu1, hu2, hu3]
  · have j2 : muRequiredKind "invchi_square" = false := rfl
    have j3 : sigmaVecKind "invchi_square" = false := rfl
    have j5 : alphaRequiredKind "invchi_square" = false := rfl
    have j6 : betaRequiredKind "invchi_square" = false := rfl
    have j7 : nuRequiredKind "invchi_square" = true := rfl
    have j13 : ("invchi_square" == "gumbel") = false := rfl
    have hlk3 : (List.lookup "invchi_square" dstr_param_lst).isNone = false := rfl
    simp [mcmcParams, mcmcResolve, argM, j2, j3, j5, j6, j7, j13, hsb, hlk3,
          Except.instMonad, Bind.bind, Except.bind, Pure.pure, Except.pure,
          Option.getD]

/-- Claim C4, exercised at a concrete input: at the default aliases the
student-t blob carries `NU = dof = 1` with no error. -/
theorem C4_witness :
    mcmcParams "student_t" 0 1 1 1 defaultTuning
      (some (MVal.num 0)) (some (MVal.num 1)) none none none none none none none none
      = .ok ⟨"student_t", [("NU", [some 1]), ("MU", [some 0]), ("SIGMA", [some 1])], 1,
             mcmcExtendRows defaultTuning⟩ :=
  (C4_mcmc_student_t_nu_fallback 0 1 1 1 0 1 (by norm_num)).1

/-- Claim C5 as amended: for every kind without required parameters, an
absent newer parameter falls back to its deprecated alias — `mu`, `xi`
to `location`, `sigma` to `scale`, `alpha` to `shape`, `nu` to `dof` —
except `beta`, whose fallback is `scale` only for `'gumbel'` and the
reciprocal `1/scale` for every other kind. -/
theorem C5_mcmc_alias_fallback :
    ∀ d ∈ ["normal", "skew_normal", "student_t", "cauchy", "laplace", "logistic",
           "gumbel", "exponential", "chi_square", "mutistudent_t", "rayleigh"],
    ∀ (loc scale sh df : ℚ), scale ≠ 0 →
      mcmcResolve d loc scale sh df none none none none none none none none none none
        = .ok ⟨MVal.num loc, MVal.num scale, MVal.num loc, MVal.num sh,
               MVal.num (if d == "gumbel" then scale else 1/scale), MVal.num df,
               none, none, none, none, 1⟩ := by
  intro d hd loc scale sh df hs
  fin_cases hd <;>
    exact mcmcResolve_none _ _ _ _ _ rfl rfl rfl rfl rfl rfl rfl rfl rfl hs

/-- Claim C5, refuting input: for `'exponential'` with `scale = 2` and
`beta` absent, the encoded `BETA` value is `1/2`, not the alias value
`2`. -/
theorem C5_counterexample :
    mcmcParams "exponential" 0 2 1 1 defaultTuning
      none none none none none none none none none none
      = .ok ⟨"exponential", [("BETA", [some (1/2)])], 1, mcmcExtendRows defaultTuning⟩ ∧
    (1/2 : ℚ) ≠ (2 : ℚ) := by
  constructor
  · have h1 := mcmcResolve_none "exponential" 0 2 1 1 rfl rfl rfl rfl rfl rfl rfl rfl rfl
      (by norm_num)
    have hg : ("exponential" == "gumbel") = false := rfl
    rw [hg] at h1
    have hlk : List.lookup "exponential" dstr_param_lst = some ["beta"] := rfl
    have hlk2 : (List.lookup "exponential" dstr_param_lst).isNone = false := rfl
    have hu1 : pyUpper "beta" = "BETA" := rfl
    simp [mcmcParams, h1, hlk, hlk2, mcmcDistrParam, paramValue, encodeMVal, hu1]
  · norm_num

/-- Claim C5, exercised at a concrete input: the `'exponential'` kind at
`scale = 1` resolves with every fallback in place. -/
theorem C5_witness :
    mcmcResolve "exponential" 0 1 1 1 none none none none none none none none none none
      = .ok ⟨MVal.num 0, MVal.num 1, MVal.num 0, MVal.num 1,
             MVal.num (if "exponential" == "gumbel" then 1 else 1/1), MVal.num 1,
             none, none, none, none, 1⟩ :=
  C5_mcmc_alias_fallback "exponential" (by simp) 0 1 1 1 (by norm_num)

/-- Claim C6 as amended: the `_rds`-based entry points and `multinomial`
generate exactly the three roles `DISTRIBUTION_PARAMETER`, `PARAMETER`
and `RESULT` as `#<NAME>_<ROLE>_<UNIQUE_ID>` with a shared identifier;
`mcmc`, however, uses `#PAL_MCMC_<ROLE>_TBL_<UNIQUE_ID>` with the two
roles `PARAMETER` and `RESULT` only. -/
theorem C6_temp_table_naming :
    (∀ (dist_name uid : String),
      rdsTables dist_name uid =
        ["#" ++ dist_name ++ "_" ++ "DISTRIBUTION_PARAMETER" ++ "_" ++ uid,
         "#" ++ dist_name ++ "_" ++ "PARAMETER" ++ "_" ++ uid,
         "#" ++ dist_name ++ "_" ++ "RESULT" ++ "_" ++ uid]) ∧
    (∀ uid : String, multinomialTables uid = rdsTables "MULTINOMIAL" uid) ∧
    (∀ uid : String,
      mcmcTables uid =
        ["#PAL_MCMC_" ++ "PARAMETER" ++ "_TBL_" ++ uid,
         "#PAL_MCMC_" ++ "RESULT" ++ "_TBL_" ++ uid]) :=
  ⟨fun dist_name uid => rfl, fun uid => rfl, fun uid => rfl⟩

/-- Claim C6, refuting input: `mcmc` generates two names, not three, and
they match no instance of the three-role `#<NAME>_<ROLE>_<UNIQUE_ID>`
convention. -/
theorem C6_counterexample :
    mcmcTables "X" = ["#PAL_MCMC_PARAMETER_TBL_X", "#PAL_MCMC_RESULT_TBL_X"] ∧
    (mcmcTables "X").length = 2 ∧
    ¬ ∃ base : String, mcmcTables "X" = rdsTables base "X" := by
  refine ⟨rfl, rfl, ?_⟩
  rintro ⟨base, h⟩
  have hlen := congrArg List.length h
  simp [mcmcTables, rdsTables] at hlen

/-- Claim C7: supplying both `sigma` and `variance` to `normal` raises a
`ValueError` for the mutually exclusive pair before any connection
interaction (the trace is empty). -/
theorem C7_normal_sigma_variance_exclusive :
    ∀ (conn : Conn) (mean s v : ℚ) (nr : ℤ) (sd : Option ℤ) (tr : Option ℚ) (uid : String),
      normal conn mean (some s) (some v) nr sd tr uid
        = ([], .error (.invalidArg
            "Parameters variance and sigma cannot be used together. Please choose one from them.")) := by
  intro conn mean s v nr sd tr uid
  simp [normal]

/-- Claim C8: `pert` raises exactly when `minimum ≤ mode ≤ maximum`
fails, and any non-strictly ordered triple (equalities allowed) passes
validation and proceeds to the remote invocation. -/
theorem C8_pert_ordering_validation (a b c : ℚ) :
    ((pert cleanConn a b c 4 100 none none "U").2
        = .error (.invalidArg
          "minimum should be less than or equal to mode, and mode should be less than or equal to maximum.")
      ↔ ¬(a ≤ b ∧ b ≤ c)) ∧
    (a ≤ b ∧ b ≤ c →
      pert cleanConn a b c 4 100 none none "U"
        = ([DbOp.create "#PERT_DISTRIBUTION_PARAMETER_U",
            DbOp.callPal "PAL_DISTRIBUTION_RANDOM" "#PERT_RESULT_U"],
           .ok "#PERT_RESULT_U")) := by
  constructor
  · by_cases hso : pySorted [a, b, c] = [a, b, c]
    · have hord := (pySorted3_iff a b c).mp hso
      constructor
      · intro herr
        simp [pert, hso, _rds, distName, cleanConn] at herr
      · intro hne
        exact absurd hord hne
    · constructor
      · intro _
        exact fun hord => hso ((pySorted3_iff a b c).mpr hord)
      · intro _
        simp [pert, hso]
  · rintro ⟨hab, hbc⟩
    have hso := (pySorted3_iff a b c).mpr ⟨hab, hbc⟩
    simp [pert, hso, _rds, distName, cleanConn, try_drop, rdsTables]

/-- Claim C8, exercised at a concrete input: the spec's example
`pert(minimum=-1, mode=0, maximum=1)` passes validation and reaches the
remote engine. -/
theorem C8_witness :
    pert cleanConn (-1) 0 1 4 100 none none "U"
      = ([DbOp.create "#PERT_DISTRIBUTION_PARAMETER_U",
          DbOp.callPal "PAL_DISTRIBUTION_RANDOM" "#PERT_RESULT_U"],
         .ok "#PERT_RESULT_U") :=
  (C8_pert_ordering_validation (-1) 0 1).2 ⟨by norm_num, by norm_num⟩

/-- Claim C9: `normal` with `sigma` omitted — the all-defaults call and
the variance-only call alike — fails with an unclassified `TypeError` at
the `sigma <= 0` comparison of `None` with a number, instead of using
the documented default `sigma = 1`; the remote engine is never reached
(the trace is empty). -/
theorem C9_normal_default_sigma_type_error :
    ∀ (conn : Conn) (mean : ℚ) (v : Option ℚ) (nr : ℤ) (sd : Option ℤ)
      (tr : Option ℚ) (uid : String),
      normal conn mean none v nr sd tr uid
        = ([], .error (.typeErr
            "'<=' not supported between instances of 'NoneType' and 'int'")) := by
  intro conn mean v nr sd tr uid
  simp [normal, pyLe]

/-- Claim C10: the kind table of `mcmc` holds the misspelled key
`mutistudent_t` and not `multistudent_t`, so the correctly spelled name
is rejected as an unknown distribution; the sigma type/required checks
test against `multistudent_t`, so for the accepted `mutistudent_t` kind
`sigma` is scalar-typed and neither `sigma` nor `nu` is mandatory — both
fall back to the scalar aliases `scale` and `dof`. -/
theorem C10_mcmc_mutistudent_misspelling :
    (List.lookup "multistudent_t" dstr_param_lst = none) ∧
    (List.lookup "mutistudent_t" dstr_param_lst = some ["nu", "mu", "sigma"]) ∧
    (∀ (conn : Conn) (loc scale sh df : ℚ) (tu : McmcTuning)
       (p1 p2 p3 p4 p5 p6 p7 p8 p9 p10 : Option MVal) (uid : String),
      mcmc conn "multistudent_t" loc scale sh df tu p1 p2 p3 p4 p5 p6 p7 p8 p9 p10 uid
        = ([], .error (.typeMismatch "distribution"))) ∧
    (sigmaVecKind "multistudent_t" = true ∧ sigmaVecKind "mutistudent_t" = false ∧
     nuRequiredKind "mutistudent_t" = false) ∧
    (mcmcParams "mutistudent_t" 0 1 1 1 defaultTuning
       none (some (MVal.vec [1, 0, 0, 1])) none none none none none none none none
       = .error (.typeMismatch "sigma")) ∧
    (∀ (loc scale sh df : ℚ), scale ≠ 0 →
      mcmcParams "mutistudent_t" loc scale sh df defaultTuning
        none none none none none none none none none none
        = .ok ⟨"mutistudent_t",
               [("NU", [some df]), ("MU", [some loc]), ("SIGMA", [some scale])], 1,
               mcmcExtendRows defaultTuning⟩) := by
  refine ⟨rfl, rfl, ?_, ⟨rfl, rfl, rfl⟩, ?_, ?_⟩
  · intro conn loc scale sh df tu p1 p2 p3 p4 p5 p6 p7 p8 p9 p10 uid
    have hlk : (List.lookup "multistudent_t" dstr_param_lst).isNone = true := rfl
    simp [mcmc, mcmcParams, hlk]
  · have k1 : muVecKind "mutistudent_t" = false := rfl
    have k2 : muRequiredKind "mutistudent_t" = false := rfl
    have k3 : sigmaVecKind "mutistudent_t" = false := rfl
    have hlk2 : (List.lookup "mutistudent_t" dstr_param_lst).isNone = false := rfl
    simp [mcmcParams, mcmcResolve, argM, k1, k2, k3, hlk2,
          Except.instMonad, Bind.bind, Except.bind, Pure.pure, Except.pure,
          Option.getD]
  · intro loc scale sh df hs
    have h1 := mcmcResolve_none "mutistudent_t" loc scale sh df
      rfl rfl rfl rfl rfl rfl rfl rfl rfl hs
    have hg : ("mutistudent_t" == "gumbel") = false := rfl
    rw [hg] at h1
    have hlk : List.lookup "mutistudent_t" dstr_param_lst = some ["nu", "mu", "sigma"] := rfl
    have hlk2 : (List.lookup "mutistudent_t" dstr_param_lst).isNone = false := rfl
    have hu1 : pyUpper "nu" = "NU" := rfl
    have hu2 : pyUpper "mu" = "MU" := rfl
    have hu3 : pyUpper "sigma" = "SIGMA" := rfl
    simp [mcmcParams, h1, hlk, hlk2, mcmcDistrParam, paramValue, encodeMVal,
          hu1, hu2, hu3]

/-- Claim C10, exercised at a concrete input: the accepted misspelled
kind resolves with `sigma` and `nu` taken from the scalar aliases. -/
theorem C10_witness :
    mcmcParams "mutistudent_t" 0 1 1 1 defaultTuning
      none none none none none none none none none none
      = .ok ⟨"mutistudent_t", [("NU", [some 1]), ("MU", [some 0]), ("SIGMA", [some 1])], 1,
             mcmcExtendRows defaultTuning⟩ :=
  C10_mcmc_mutistudent_misspelling.2.2.2.2.2 0 1 1 1 (by norm_num)

end PalRandom
